import Mathlib

/-!
Shallow embedding of the user-authentication views, the logout view, the
courseware student-module service and the staff-export management command
of this repository, with theorems settling the stated properties.

Conventions used throughout:
* Python dict-like POST data is a `List (String × String)`; key lookup is
  the first match, mirroring a Django QueryDict single-value read.
* Fallible code returns `Except String α`; the string is the exception
  raised (an `AuthFailedError` message, or the exception class name).
* Side effects (audit-log writes, counter updates, e-mails, session
  creation) are collected in an explicit effect list, in program order.
* External library functions whose internals the repository does not
  contain (JSON parsing, Unicode password normalization, the password
  compliance policy) are taken as function parameters of the model.
-/

namespace Edx

/-! ## Shared request helpers -/

/-- First value stored under key `k` in a QueryDict-like list of POST
pairs; `none` when the key is absent (Python `k in request.POST` false). -/
def postGet (post : List (String × String)) (k : String) : Option String :=
  (post.find? (fun p => p.fst == k)).map Prod.snd

/-- Removal of every entry for key `k` (Python `del qdict[k]`). -/
def delParam (post : List (String × String)) (k : String) : List (String × String) :=
  post.filter (fun p => p.fst != k)

/-- Assignment `qdict[k] = v`: any old entry for `k` is dropped and the new
pair stored. -/
def setParam (post : List (String × String)) (k v : String) : List (String × String) :=
  delParam post k ++ [(k, v)]

/-! ## The response shim (`shim_student_view` in login.py)

The shim wraps the legacy `login_user` view.  It first edits the POST data
(strips the enrollment fields and promotes `analytics.enroll_course_id`),
then calls the inner view, then rewrites the status code and body of the
inner response.  The two halves are modelled separately and composed in
`shim_student_view`. -/

/-- The POST-data half of the shim (login.py lines 513-549).  `parse`
stands for `json.loads` restricted to string-valued JSON objects; `none`
models the ValueError raised on malformed input.  On a parse failure the
source enters an `except` block whose `log.error(...)` call formats the
local variable `analytics`, which was never assigned: Python raises
UnboundLocalError, which propagates out of the shim.  The model returns
that exception as an error. -/
def shim_modified_request (parse : String → Option (List (String × String)))
    (post : List (String × String)) : Except String (List (String × String)) :=
  let p1 := delParam post "enrollment_action"
  let p2 := delParam p1 "course_id"
  match postGet p2 "analytics" with
  | none => .ok p2
  | some a =>
    match parse a with
    | some analytics =>
      match postGet analytics "enroll_course_id" with
      | some cid => .ok (setParam p2 "course_id" cid)
      | none => .ok p2
    | none => .error "UnboundLocalError: local variable analytics referenced before assignment"

/-- The decoded body of the inner response, as the shim sees it after
`json.loads` plus `dict.get`:  `jsonDict value success` is a JSON object
body (each field `none` when the key is absent), `raw` is content that is
not a JSON object (the `except (ValueError, TypeError)` path, which sets
`msg = response.content` and `success = True`). -/
inductive ShimBody
  | jsonDict (value : Option String) (success : Option Bool)
  | raw (s : String)
deriving Repr, DecidableEq

/-- The `msg` local of the shim: `response_dict.get("value", u"")`, or the
whole content for a non-JSON body. -/
def shim_msg : ShimBody → String
  | .jsonDict v _ => v.getD ""
  | .raw s => s

/-- The truthiness of the `success` local of the shim:
`response_dict.get("success")` is falsy when absent or `False`; a non-JSON
body sets `success = True`. -/
def shim_success : ShimBody → Bool
  | .jsonDict _ s => s == some true
  | .raw _ => true

/-- An HTTP response as the shim produces it: a status code and a body. -/
structure ShimResponse where
  status_code : Nat
  content : String
deriving Repr, DecidableEq

/-- The response-rewriting half of the shim (login.py lines 590-631).
`check_logged_in` is the keyword argument of `shim_student_view`;
`is_authenticated` is whether `request.user` is authenticated after the
inner view ran. -/
def shim_translate_response (check_logged_in is_authenticated : Bool)
    (status_code : Nat) (body : ShimBody) : ShimResponse :=
  let msg := shim_msg body
  if check_logged_in && !is_authenticated then
    if status_code == 403 then
      { status_code := status_code, content := "third-party-auth" }
    else
      { status_code := 403, content := msg }
  else if status_code != 200 || !(shim_success body) then
    { status_code := if status_code == 200 then 400 else status_code, content := msg }
  else
    { status_code := status_code, content := msg }

/-- The whole shim: edit the POST data, call the inner `view` on the edited
data, then rewrite the response.  The inner view is a function from the
edited POST data to a status code and decoded body.  When the POST edit
raises (the UnboundLocalError above), the inner view is never invoked and
the exception propagates. -/
def shim_student_view (check_logged_in : Bool)
    (parse : String → Option (List (String × String)))
    (view : List (String × String) → Nat × ShimBody)
    (post : List (String × String)) (is_authenticated : Bool) :
    Except String ShimResponse :=
  match shim_modified_request parse post with
  | .error e => .error e
  | .ok mpost =>
    let r := view mpost
    .ok (shim_translate_response check_logged_in is_authenticated r.fst r.snd)

/-- A concrete stand-in for `json.loads` used in closed statements: it
parses only the empty JSON object and fails on everything else. -/
def tinyJsonObjects (s : String) : Option (List (String × String)) :=
  if s == "{}" then some [] else none

/-- A concrete inner view used in closed statements: it ignores the request
and replies 200 with a plain body. -/
def constOkView : List (String × String) → Nat × ShimBody :=
  fun _ => (200, ShimBody.raw "ok")

/-! ## The student-module service (`services.py`) -/

/-- One row of the `StudentModule` table, with the three fields
`get_state_as_json` touches. -/
structure StudentModule where
  student_username : String
  module_state_key : String
  state : String
deriving Repr, DecidableEq

/-- The value `get_state_as_json` returns: the literal empty dict `{}`
assigned on `StudentModule.DoesNotExist`, or the result of
`json.loads(student_module.state)`. -/
inductive StateResult (α : Type)
  | empty
  | decoded (a : α)
deriving Repr, DecidableEq

/-- The rows of `db` matching the `.get()` keyword filters of
`get_state_as_json`. -/
def matchingModules (db : List StudentModule) (username block_id : String) :
    List StudentModule :=
  db.filter (fun m => m.student_username == username && m.module_state_key == block_id)

/-- `StudentModuleService.get_state_as_json` (services.py lines 18-41).
`parse` stands for `json.loads`.  `.get()` raises `DoesNotExist` on zero
matches — caught, yielding the empty dict — and `MultipleObjectsReturned`
on several matches, which is not caught and propagates. -/
def get_state_as_json {α : Type} (parse : String → α) (db : List StudentModule)
    (username block_id : String) : Except String (StateResult α) :=
  match matchingModules db username block_id with
  | [] => .ok .empty
  | [m] => .ok (.decoded (parse m.state))
  | _ => .error "MultipleObjectsReturned"

/-! ## The staff-export command (`export_staff_users.py`) -/

/-- The user fields read by the command.  Timestamps are integers counted
in days, so `timedelta(days=days)` is plain subtraction. -/
structure RoleUser where
  username : String
  email : String
  last_login : Int
  is_staff : Bool
deriving Repr, DecidableEq

/-- One `CourseAccessRole` row. -/
structure AccessRole where
  user : RoleUser
  role : String
  course_id : String
deriving Repr, DecidableEq

/-- One `CourseOverview` row; `end_date` is the model field `end`. -/
structure CourseOverview where
  id : String
  end_date : Int
deriving Repr, DecidableEq

/-- The ids of `CourseOverview.objects.filter(end__gte=current_date)`. -/
def active_courses (courses : List CourseOverview) (current_date : Int) : List String :=
  (courses.filter (fun c => current_date ≤ c.end_date)).map (fun c => c.id)

/-- The queryset of `Command.handle` (export_staff_users.py lines 44-54):
role in staff/instructor, `user__last_login__range=(current_date,
starting_date)` — a SQL BETWEEN whose lower endpoint is `current_date` and
upper endpoint `current_date - days` — an active course, and a non-staff
user. -/
def selected_course_access_roles (roles : List AccessRole)
    (courses : List CourseOverview) (current_date days : Int) : List AccessRole :=
  let starting_date := current_date - days
  roles.filter (fun r =>
    (r.role == "staff" || r.role == "instructor")
    && (decide (current_date ≤ r.user.last_login)
        && decide (r.user.last_login ≤ starting_date))
    && (active_courses courses current_date).contains r.course_id
    && !r.user.is_staff)

/-- Observable effects of `Command.handle`. -/
inductive CommandEffect
  | email_sent (rows : Nat)
  | log_info
  | log_failure
deriving Repr, DecidableEq

/-- `Command.handle` (lines 44-69): build the queryset, try to e-mail the
CSV (logging success or failure; a send failure is swallowed), and return
the queryset count either way.  `email_ok` is whether `send_email` raised. -/
def export_staff_handle (roles : List AccessRole) (courses : List CourseOverview)
    (current_date days : Int) (email_ok : Bool) : Nat × List CommandEffect :=
  let selected := selected_course_access_roles roles courses current_date days
  if email_ok then
    (selected.length, [.email_sent selected.length, .log_info])
  else
    (selected.length, [.log_failure])

/-! ## The logout view (`logout.py`)

Relying-party logout URIs are modelled in split form (the five components
`urlsplit` produces, with the query string already taken apart the way
`parse_qs` does: one entry per key, each holding the list of its values).
`urlunsplit` renders the split form back to the string the database stores,
which is what the referrer comparison in `get_context_data` reads. -/

/-- A URL in split form. -/
structure Url where
  scheme : String
  netloc : String
  path : String
  query : List (String × List String)
  fragment : String
deriving Repr, DecidableEq

/-- Lookup of a query key in a `parse_qs`-style association list. -/
def getQueryParam (q : List (String × List String)) (k : String) :
    Option (List String) :=
  (q.find? (fun p => p.fst == k)).map Prod.snd

/-- Assignment `query_params[k] = v` on a `parse_qs`-style list: the entry
for `k` is replaced in place, or added at the end when absent. -/
def setQueryParam : List (String × List String) → String → List String →
    List (String × List String)
  | [], k, v => [(k, v)]
  | p :: rest, k, v =>
    if p.fst == k then (k, v) :: rest else p :: setQueryParam rest k v

/-- The `urlencode(..., doseq=True)` rendering of a query list. -/
def encodeQuery (q : List (String × List String)) : String :=
  String.intercalate "&" (q.map (fun p => p.snd.map (fun v => p.fst ++ "=" ++ v))).flatten

/-- The `urlunsplit` rendering of a split URL. -/
def urlunsplit (u : Url) : String :=
  (if u.scheme == "" then "" else u.scheme ++ "://")
    ++ u.netloc ++ u.path
    ++ (if u.query.isEmpty then "" else "?" ++ encodeQuery u.query)
    ++ (if u.fragment == "" then "" else "#" ++ u.fragment)

/-- `LogoutView._build_logout_url` (logout.py lines 83-97): split the URL,
set the `no_redirect` query parameter to 1, re-encode and unsplit.  On the
split representation that is exactly the query-parameter assignment. -/
def build_logout_url (u : Url) : Url :=
  { u with query := setQueryParam u.query "no_redirect" ["1"] }

/-- Python `str.strip(c)`: the character removed from both ends. -/
def pyStripChar (c : Char) (s : String) : String :=
  String.mk (((s.data.dropWhile (fun x => x == c)).reverse.dropWhile
    (fun x => x == c)).reverse)

/-- One registered OAuth client row; `logout_uri` is nullable. -/
structure OAuthClient where
  client_id : String
  logout_uri : Option Url
deriving Repr, DecidableEq

/-- The state `LogoutView` reads: the authorized client ids recorded in the
session, the client table, the `IDA_LOGOUT_URI_LIST` setting and the HTTP
referrer header. -/
structure LogoutCtx where
  session_client_ids : List String
  clients : List OAuthClient
  ida_logout_uri_list : List Url
  http_referer : String
deriving Repr, DecidableEq

/-- The DOP queryset of `get_context_data`:
`Client.objects.filter(client_id__in=..., logout_uri__isnull=False)`. -/
def client_logout_uris (ctx : LogoutCtx) : List Url :=
  (ctx.clients.filter (fun c =>
    ctx.session_client_ids.contains c.client_id && c.logout_uri.isSome)).filterMap
    (fun c => c.logout_uri)

/-- The full `uris` list of `get_context_data`: the DOP queryset followed
by the `IDA_LOGOUT_URI_LIST` setting. -/
def registered_logout_uris (ctx : LogoutCtx) : List Url :=
  client_logout_uris ctx ++ ctx.ida_logout_uri_list

/-- The `referrer` local of `get_context_data`:
`request.META.get('HTTP_REFERER', '').strip('/')`. -/
def logout_referrer (ctx : LogoutCtx) : String :=
  pyStripChar '/' ctx.http_referer

/-- The `logout_uris` entry of the rendered context (logout.py lines
124-130): every registered URI that does not start with the referrer,
passed through `build_logout_url`. -/
def logout_uris (ctx : LogoutCtx) : List Url :=
  ((registered_logout_uris ctx).filter (fun u =>
    logout_referrer ctx == ""
      || (logout_referrer ctx != ""
          && !((urlunsplit u).startsWith (logout_referrer ctx))))).map build_logout_url

/-- Observable effects of `LogoutView.dispatch`, in program order. -/
inductive LogoutEffect
  | set_is_from_logout
  | read_authorized_clients
  | session_logout
  | render_logout_page (uris : List Url)
  | delete_logged_in_cookies
deriving Repr, DecidableEq

/-- `LogoutView.dispatch` (logout.py lines 67-81): mark the request, read
the authorized clients from the session, log the session out, render the
template with the context, then delete the marketing-site logged-in
cookies from the response. -/
def LogoutView_dispatch (ctx : LogoutCtx) : List LogoutEffect :=
  [.set_is_from_logout, .read_authorized_clients, .session_logout,
   .render_logout_page (logout_uris ctx), .delete_logged_in_cookies]

/-! ## The login view (`login.py`)

The login flow is a straight-line composition of helper functions, each of
which can raise `AuthFailedError`.  Every helper is modelled as a pure
function returning its result (or the raised message) together with the
list of side effects it performed, in program order.  The effect
constructors `lockout_check_run`, `sso_check_run`, `password_check_run`
and `active_check_run` mark that control reached the corresponding check;
the others stand for the named externally visible action. -/

/-- A `django.contrib.auth.models.User` row, restricted to the fields the
login flow reads.  `password` is the stored credential; verification
compares it with the normalized submitted password. -/
structure UserRec where
  uid : Nat
  username : String
  email : String
  password : String
  is_active : Bool
deriving Repr, DecidableEq

/-- The feature switches the login flow consults. -/
structure Features where
  squelch_pii_in_logs : Bool
  login_failures_enabled : Bool
  third_party_auth_enabled : Bool
  third_party_auth_only : Bool
  enforce_compliance_on_login : Bool
  update_login_user_error_status_code : Bool
deriving Repr, DecidableEq

/-- The site configuration `_check_user_auth_flow` reads, with the
`AllowedAuthUser` rows of the site flattened to the allow-listed emails. -/
structure Site where
  third_party_auth_only_domain : String
  third_party_auth_only_provider : String
  allowed_auth_users : List String
deriving Repr, DecidableEq

/-- The persistent state the login flow reads: the user table and the set
of user ids `LoginFailures.is_user_locked_out` reports as locked. -/
structure Db where
  users : List UserRec
  locked_out : List Nat
deriving Repr, DecidableEq

/-- The outcome of `password_policy_compliance.enforce_compliance_on_login`:
normal return, `NonCompliantPasswordWarning`, or
`NonCompliantPasswordException` with the exception text. -/
inductive ComplianceOutcome
  | accepted
  | warning (msg : String)
  | rejected (msg : String)
deriving Repr, DecidableEq

/-- The environment of a login request: feature switches, database state,
and the two external library functions the flow calls (Unicode password
normalization and the password-compliance policy). -/
structure LoginEnv where
  features : Features
  db : Db
  normalize_password : String → String
  compliance : UserRec → String → ComplianceOutcome

/-- One login request: the POST data, the third-party pipeline state, the
rate-limiter verdict for this request, and the site. -/
structure LoginRequest where
  post : List (String × String)
  pipeline_running : Bool
  pipeline_user : Option UserRec
  pipeline_username : String
  pipeline_backend_name : String
  pipeline_provider_name : String
  platform_name : String
  pipeline_complete_url : String
  rate_limited : Bool
  site : Site

/-- Observable side effects of the login flow, in program order. -/
inductive Effect
  | audit (msg : String)
  | increment_lockout_counter (uid : Nat)
  | clear_lockout_counter (uid : Nat)
  | send_activation_email (uid : Nat)
  | send_password_reset_email (uid : Nat)
  | register_warning (msg : String)
  | lockout_check_run
  | sso_check_run
  | password_check_run (username : String)
  | active_check_run
  | track_login (uid : Nat)
  | establish_session (uid : Nat)
deriving Repr, DecidableEq

/-- The response of `login_user`: the success JSON, the
`AuthFailedError` JSON with its status code, or the plain-text 403 of the
unlinked third-party branch. -/
inductive LoginResult
  | success (redirect_url : Option String)
  | failure (value : String) (status : Nat)
  | third_party_failure (value : String)
deriving Repr, DecidableEq

/-- Message of the missing-fields branch of `_get_user_by_email`. -/
def login_info_error_message : String :=
  "There was an error receiving your login information. Please email us."

/-- Message of `_check_excessive_login_attempts`. -/
def locked_out_message : String :=
  "This account has been temporarily locked due to excessive login failures. Try again later."

/-- Message of the `RateLimitException` branch of
`_authenticate_first_party`. -/
def rate_limit_message : String :=
  "Too many failed login attempts. Try again later."

/-- The single generic credential-failure message of
`_handle_failed_authentication`. -/
def incorrect_message : String :=
  "Email or password is incorrect."

/-- Rendering of `_generate_not_activated_message` (markup dropped). -/
def not_activated_message (email : String) : String :=
  "In order to sign in, you need to activate your account. We just sent an activation link to "
    ++ email

/-- Message of the `_check_user_auth_flow` failure. -/
def sso_message (allowed_domain provider : String) : String :=
  "As an " ++ allowed_domain ++ " user, You must login with your "
    ++ allowed_domain ++ " " ++ provider ++ " account."

/-- Rendering of the unlinked-third-party-account message of
`_do_third_party_auth` (markup dropped). -/
def third_party_unlinked_message (provider_name platform_name : String) : String :=
  "You have successfully signed in to your " ++ provider_name
    ++ " account, but this account is not linked with your "
    ++ platform_name ++ " account yet."

/-- Python `str.lower()` (character-wise). -/
def lowerString (s : String) : String :=
  String.mk (s.data.map Char.toLower)

/-- Python `str.strip()`: whitespace removed from both ends. -/
def pyStripSpace (s : String) : String :=
  String.mk (((s.data.dropWhile Char.isWhitespace).reverse.dropWhile
    Char.isWhitespace).reverse)

/-- Splitting of a character list at every occurrence of `c`
(Python `str.split(c)`); `acc` holds the current piece reversed. -/
def splitCharAux (c : Char) : List Char → List Char → List (List Char)
  | [], acc => [acc.reverse]
  | x :: xs, acc =>
    if x == c then acc.reverse :: splitCharAux c xs []
    else splitCharAux c xs (x :: acc)

/-- The `user_domain` computation of `_check_user_auth_flow`:
`email.split(AT)[1].strip()`.  Python raises IndexError when the email has
no AT sign; the model returns the empty string there. -/
def emailDomain (email : String) : String :=
  match (splitCharAux '@' email.data []).map String.mk with
  | _ :: d :: _ => pyStripSpace d
  | _ => ""

/-- The `username` local of `_authenticate_first_party`: the resolved
username, or an empty (hence invalid) username so authentication is
guaranteed to fail. -/
def username_for : Option UserRec → String
  | some u => u.username
  | none => ""

/-- The condition under which `_check_user_auth_flow` raises (login.py
lines 289-301): feature enabled, the lowered stripped email domain equals
the lowered site domain, and the email is not allow-listed. -/
def sso_violation (features : Features) (site : Site) (u : UserRec) : Bool :=
  features.third_party_auth_only
    && (lowerString (emailDomain u.email)
        == lowerString site.third_party_auth_only_domain)
    && !(site.allowed_auth_users.contains u.email)

/-- `_do_third_party_auth` (lines 55-90): return the pipeline-linked user,
or log and raise the unlinked-account message. -/
def _do_third_party_auth (req : LoginRequest) : Except String UserRec × List Effect :=
  match req.pipeline_user with
  | some u => (.ok u, [])
  | none =>
    (.error (third_party_unlinked_message req.pipeline_provider_name req.platform_name),
     [.audit ("Login failed - user with username " ++ req.pipeline_username
       ++ " has no social auth with backend_name " ++ req.pipeline_backend_name)])

/-- The lookup step of `_get_user_by_email` (lines 100-108): find the user
by email, logging (with PII squelched or not) and returning `none` when
the email is unknown. -/
def _get_user_by_email_lookup (features : Features) (db : Db) (email : String) :
    Except String (Option UserRec) × List Effect :=
  match db.users.find? (fun u => u.email == email) with
  | some u => (.ok (some u), [])
  | none =>
    if features.squelch_pii_in_logs then
      (.ok none, [.audit "Login failed - Unknown user email"])
    else
      (.ok none, [.audit ("Login failed - Unknown user email: " ++ email)])

/-- `_get_user_by_email` (lines 93-108): raise when either field is absent
from the POST data; otherwise look the user up by email. -/
def _get_user_by_email (features : Features) (db : Db)
    (post : List (String × String)) : Except String (Option UserRec) × List Effect :=
  match postGet post "email", postGet post "password" with
  | some email, some _ => _get_user_by_email_lookup features db email
  | _, _ => (.error login_info_error_message, [])

/-- `_check_excessive_login_attempts` (lines 111-118). -/
def _check_excessive_login_attempts (features : Features) (db : Db)
    (user : Option UserRec) : Except String Unit × List Effect :=
  match user with
  | some u =>
    if features.login_failures_enabled && db.locked_out.contains u.uid then
      (.error locked_out_message, [.lockout_check_run])
    else (.ok (), [.lockout_check_run])
  | none => (.ok (), [.lockout_check_run])

/-- `_check_user_auth_flow` (lines 284-301). -/
def _check_user_auth_flow (features : Features) (site : Site)
    (user : Option UserRec) : Except String Unit × List Effect :=
  match user with
  | some u =>
    if sso_violation features site u then
      (.error (sso_message (lowerString site.third_party_auth_only_domain)
        site.third_party_auth_only_provider), [.sso_check_run])
    else (.ok (), [.sso_check_run])
  | none => (.ok (), [.sso_check_run])

/-- The value django `authenticate(username=..., password=...)` returns
with the platform backends: the user whose username matches, provided the
normalized submitted password equals the stored one.  Inactive users are
returned too; `login_user` tests `is_active` itself. -/
def authenticate_result (env : LoginEnv) (req : LoginRequest)
    (username : String) : Option UserRec :=
  (env.db.users.find? (fun u => u.username == username)).bind (fun u =>
    if u.password == env.normalize_password ((postGet req.post "password").getD "")
    then some u else none)

/-- `_authenticate_first_party` (lines 187-208): the domain-SSO check runs
first; then the rate limiter can abort before any credential check;
otherwise the credential check runs. -/
def _authenticate_first_party (env : LoginEnv) (req : LoginRequest)
    (user : Option UserRec) : Except String (Option UserRec) × List Effect :=
  match _check_user_auth_flow env.features req.site user with
  | (.error m, e) => (.error m, e)
  | (.ok _, e) =>
    if req.rate_limited then
      (.error rate_limit_message, e)
    else
      (.ok (authenticate_result env req (username_for user)),
       e ++ [.password_check_run (username_for user)])

/-- `_enforce_password_policy_compliance` (lines 121-130). -/
def _enforce_password_policy_compliance (env : LoginEnv) (req : LoginRequest)
    (user : UserRec) : Except String Unit × List Effect :=
  match env.compliance user ((postGet req.post "password").getD "") with
  | .accepted => (.ok (), [])
  | .warning m => (.ok (), [.register_warning m])
  | .rejected m => (.error m, [.send_password_reset_email user.uid])

/-- `_handle_failed_authentication` (lines 211-230), returning the message
it raises with and its effects: the counter increment (feature-gated), the
inactive-account detour of `_log_and_raise_inactive_user_auth_error`
(lines 166-184), and the audit entry. -/
def _handle_failed_authentication (features : Features)
    (user authenticated_user : Option UserRec) : String × List Effect :=
  match user with
  | none => (incorrect_message, [])
  | some u =>
    let e0 := if features.login_failures_enabled
      then [Effect.increment_lockout_counter u.uid] else []
    if authenticated_user.isSome && !u.is_active then
      let m := if features.squelch_pii_in_logs
        then "Login failed - Account not active for user.id: " ++ toString u.uid
          ++ ", resending activation"
        else "Login failed - Account not active for user " ++ u.username
          ++ ", resending activation"
      (not_activated_message u.email, e0 ++ [.audit m, .send_activation_email u.uid])
    else
      let m := if features.squelch_pii_in_logs
        then "Login failed - password for user.id: " ++ toString u.uid ++ " is invalid"
        else "Login failed - password for " ++ u.email ++ " is invalid"
      (incorrect_message, e0 ++ [.audit m])

/-- `_handle_successful_authentication_and_login` (lines 233-250) together
with `_track_user_login`: clear the counter (feature-gated), emit the
tracking events, establish the session. -/
def _handle_successful_authentication_and_login (features : Features)
    (user : UserRec) : List Effect :=
  (if features.login_failures_enabled
    then [Effect.clear_lockout_counter user.uid] else [])
    ++ [.track_login user.uid, .establish_session user.uid]

/-- The `first_party_auth_requested` local of `login_user`: a non-empty
`email` or `password` POST field. -/
def first_party_auth_requested (req : LoginRequest) : Bool :=
  ((postGet req.post "email").getD "" != "")
    || ((postGet req.post "password").getD "" != "")

/-- The branch condition of `login_user`: third-party auth enabled with a
running pipeline, and no first-party credentials supplied. -/
def is_tpa_flow (env : LoginEnv) (req : LoginRequest) : Bool :=
  (env.features.third_party_auth_enabled && req.pipeline_running)
    && !(first_party_auth_requested req)

/-- The `except AuthFailedError` branch of `login_user` (lines 401-410):
the error JSON with status 400 when the rollout switch is on, 200
otherwise. -/
def authFailedResponse (features : Features) (msg : String) : LoginResult :=
  .failure msg (if features.update_login_user_error_status_code then 400 else 200)

/-- The tail of `login_user` from line 380: the active-account test, then
either `_handle_failed_authentication` or
`_handle_successful_authentication_and_login` plus the success JSON (with
the pipeline completion URL as redirect on the third-party path). -/
def login_user_active_check (env : LoginEnv) (req : LoginRequest)
    (user pau : Option UserRec) (is_tpa : Bool) (effs : List Effect) :
    LoginResult × List Effect :=
  let effs := effs ++ [Effect.active_check_run]
  match pau with
  | some au =>
    if au.is_active then
      (.success (if is_tpa then some req.pipeline_complete_url else none),
       effs ++ _handle_successful_authentication_and_login env.features au)
    else
      let r := _handle_failed_authentication env.features user (some au)
      (authFailedResponse env.features r.fst, effs ++ r.snd)
  | none =>
    let r := _handle_failed_authentication env.features user none
    (authFailedResponse env.features r.fst, effs ++ r.snd)

/-- The compliance step of `login_user` (lines 376-378) followed by the
active-account tail: the compliance check runs only when a user
authenticated and the policy switch is on. -/
def login_user_after_auth (env : LoginEnv) (req : LoginRequest)
    (user : Option UserRec) (pau : Option UserRec) (effs : List Effect) :
    LoginResult × List Effect :=
  match pau with
  | some au =>
    if env.features.enforce_compliance_on_login then
      match _enforce_password_policy_compliance env req au with
      | (.error m, e3) => (authFailedResponse env.features m, effs ++ e3)
      | (.ok _, e3) => login_user_active_check env req user (some au) false (effs ++ e3)
    else
      login_user_active_check env req user (some au) false effs
  | none => login_user_active_check env req user none false effs

/-- The body of `login_user` after the user was resolved (lines 370-383):
the lockout check; on the first-party path `_authenticate_first_party`
and the compliance step; then the active-account tail. -/
def login_user_resolved (env : LoginEnv) (req : LoginRequest)
    (user : Option UserRec) (is_tpa : Bool) (effs0 : List Effect) :
    LoginResult × List Effect :=
  match _check_excessive_login_attempts env.features env.db user with
  | (.error m, e1) => (authFailedResponse env.features m, effs0 ++ e1)
  | (.ok _, e1) =>
    if is_tpa then
      login_user_active_check env req user user true (effs0 ++ e1)
    else
      match _authenticate_first_party env req user with
      | (.error m, e2) => (authFailedResponse env.features m, effs0 ++ e1 ++ e2)
      | (.ok pau, e2) => login_user_after_auth env req user pau (effs0 ++ e1 ++ e2)

/-- `login_user` (lines 339-410): the third-party branch (plain 403 on an
unlinked account) or the email lookup, then the common tail. -/
def login_user (env : LoginEnv) (req : LoginRequest) : LoginResult × List Effect :=
  if is_tpa_flow env req then
    match _do_third_party_auth req with
    | (.error m, e) => (.third_party_failure m, e)
    | (.ok u, e) => login_user_resolved env req (some u) true e
  else
    match _get_user_by_email env.features env.db req.post with
    | (.error m, e) => (authFailedResponse env.features m, e)
    | (.ok user, e) => login_user_resolved env req user false e

/-- The user the first-party path of `login_user` resolves (none when the
lookup raised or found nobody). -/
def resolved_email_user (env : LoginEnv) (req : LoginRequest) : Option UserRec :=
  match _get_user_by_email env.features env.db req.post with
  | (.ok v, _) => v
  | (.error _, _) => none

/-- The effects emitted only by the session-establishment step
`_handle_successful_authentication_and_login`. -/
def session_step_effect : Effect → Bool
  | .clear_lockout_counter _ => true
  | .track_login _ => true
  | .establish_session _ => true
  | _ => false

/-- Whether a `login_user` response carries `success = true`. -/
def is_success : LoginResult → Bool
  | .success _ => true
  | _ => false

/-! ### Concrete inputs used in closed statements -/

/-- An active user whose stored password is the string secret. -/
def aliceUser : UserRec :=
  { uid := 7, username := "alice", email := "alice@example.com",
    password := "secret", is_active := true }

/-- Feature switches with the lockout feature enabled and everything else
off. -/
def lockedFeatures : Features :=
  { squelch_pii_in_logs := false, login_failures_enabled := true,
    third_party_auth_enabled := false, third_party_auth_only := false,
    enforce_compliance_on_login := false,
    update_login_user_error_status_code := false }

/-- A site with no domain-SSO restriction. -/
def plainSite : Site :=
  { third_party_auth_only_domain := "", third_party_auth_only_provider := "",
    allowed_auth_users := [] }

/-- An environment in which the lone user is locked out. -/
def lockedEnv : LoginEnv :=
  { features := lockedFeatures,
    db := { users := [aliceUser], locked_out := [7] },
    normalize_password := fun s => s,
    compliance := fun _ _ => .accepted }

/-- A login request for the locked-out user carrying the correct
password. -/
def lockedReq : LoginRequest :=
  { post := [("email", "alice@example.com"), ("password", "secret")],
    pipeline_running := false, pipeline_user := none, pipeline_username := "",
    pipeline_backend_name := "", pipeline_provider_name := "",
    platform_name := "", pipeline_complete_url := "", rate_limited := false,
    site := plainSite }

/-- An active user for the enumeration-resistance statements. -/
def bobUser : UserRec :=
  { uid := 3, username := "bob", email := "bob@example.com",
    password := "hunter2", is_active := true }

/-- An environment holding only `bobUser`, with no lockout state. -/
def bobEnv : LoginEnv :=
  { features := lockedFeatures,
    db := { users := [bobUser], locked_out := [] },
    normalize_password := fun s => s,
    compliance := fun _ _ => .accepted }

/-- A login request with an email belonging to no user. -/
def unknownEmailReq : LoginRequest :=
  { post := [("email", "nobody@example.com"), ("password", "whatever")],
    pipeline_running := false, pipeline_user := none, pipeline_username := "",
    pipeline_backend_name := "", pipeline_provider_name := "",
    platform_name := "", pipeline_complete_url := "", rate_limited := false,
    site := plainSite }

/-- A login request for `bobUser` with a wrong password. -/
def wrongPasswordReq : LoginRequest :=
  { post := [("email", "bob@example.com"), ("password", "wrong")],
    pipeline_running := false, pipeline_user := none, pipeline_username := "",
    pipeline_backend_name := "", pipeline_provider_name := "",
    platform_name := "", pipeline_complete_url := "", rate_limited := false,
    site := plainSite }

end Edx

namespace Edx

/-! ## Theorems -/

/-- Setting a query key makes it hold exactly the assigned value. -/
theorem getQueryParam_setQueryParam_same (q : List (String × List String))
    (k : String) (v : List String) :
    getQueryParam (setQueryParam q k v) k = some v := by
  induction q with
  | nil => simp [setQueryParam, getQueryParam]
  | cons p rest ih =>
    by_cases h : p.fst = k
    · simp [setQueryParam, getQueryParam, h]
    · simpa [setQueryParam, getQueryParam, h] using ih

/-- Setting a query key leaves every other key unchanged. -/
theorem getQueryParam_setQueryParam_other (q : List (String × List String))
    (k : String) (v : List String) (k2 : String) (h : k2 ≠ k) :
    getQueryParam (setQueryParam q k v) k2 = getQueryParam q k2 := by
  have hk : (k == k2) = false := by simp [Ne.symm h]
  induction q with
  | nil => simp [setQueryParam, getQueryParam, List.find?, hk]
  | cons p rest ih =>
    by_cases hp : p.fst = k
    · have h2 : (p.fst == k2) = false := by simp [hp, Ne.symm h]
      simp [setQueryParam, getQueryParam, hp, List.find?, hk, h2]
    · by_cases hp2 : p.fst = k2
      · have h2 : (p.fst == k2) = true := by simp [hp2]
        simp [setQueryParam, getQueryParam, hp, List.find?, h2]
      · have h2 : (p.fst == k2) = false := by simp [hp2]
        simpa [setQueryParam, getQueryParam, hp, List.find?, h2] using ih

/-- C3: the claim says a POST whose `analytics` field fails to parse as
JSON is logged and the inner view still runs, the failure never propagating
as an exception.  The code disagrees: the `except` handler formats the
unassigned local `analytics`, so `json.loads` failures surface as an
UnboundLocalError that aborts the shim before the inner view is invoked.
This theorem evaluates the model at the failing input. -/
theorem shim_analytics_parse_failure_raises :
    shim_student_view true tinyJsonObjects constOkView
        [("analytics", "not-json")] false
      = .error "UnboundLocalError: local variable analytics referenced before assignment" := by
  rfl

/-- C4: when the inner view replies 200 with a JSON body whose `success`
is false and whose `value` is the string Error!, and the
`check_logged_in and not is_authenticated` translation does not apply, the
shim replies 400 with body exactly Error!. -/
theorem shim_error_json_gives_400 (check_logged_in is_authenticated : Bool)
    (parse : String → Option (List (String × String)))
    (view : List (String × String) → Nat × ShimBody)
    (post mpost : List (String × String))
    (hpre : shim_modified_request parse post = .ok mpost)
    (hview : view mpost = (200, ShimBody.jsonDict (some "Error!") (some false)))
    (hauth : check_logged_in = false ∨ is_authenticated = true) :
    shim_student_view check_logged_in parse view post is_authenticated
      = .ok { status_code := 400, content := "Error!" } := by
  rcases hauth with h | h <;>
    simp [shim_student_view, hpre, hview, shim_translate_response, h,
      shim_msg, shim_success]

/-- Witness for C4 at a concrete request. -/
theorem shim_error_json_gives_400_witness :
    shim_student_view false tinyJsonObjects
        (fun _ => (200, ShimBody.jsonDict (some "Error!") (some false))) [] false
      = .ok { status_code := 400, content := "Error!" } :=
  shim_error_json_gives_400 false false tinyJsonObjects
    (fun _ => (200, ShimBody.jsonDict (some "Error!") (some false))) [] []
    rfl rfl (Or.inl rfl)

/-- C5: with `check_logged_in` true and the requester unauthenticated after
the inner view ran, an inner 403 keeps its status and gets the sentinel
body third-party-auth, while any other inner status is forced to 403 with
the inner message as body. -/
theorem shim_unauthenticated_gets_403 (parse : String → Option (List (String × String)))
    (view : List (String × String) → Nat × ShimBody)
    (post mpost : List (String × String)) (status : Nat) (body : ShimBody)
    (hpre : shim_modified_request parse post = .ok mpost)
    (hview : view mpost = (status, body)) :
    (status = 403 →
      shim_student_view true parse view post false
        = .ok { status_code := 403, content := "third-party-auth" })
    ∧ (status ≠ 403 →
      shim_student_view true parse view post false
        = .ok { status_code := 403, content := shim_msg body }) := by
  constructor
  · intro h
    subst h
    simp [shim_student_view, hpre, hview, shim_translate_response]
  · intro h
    simp [shim_student_view, hpre, hview, shim_translate_response, h]

/-- Witness for C5 at a concrete request: the sentinel branch. -/
theorem shim_unauthenticated_gets_403_witness :
    shim_student_view true tinyJsonObjects (fun _ => (403, ShimBody.raw "x")) [] false
      = .ok { status_code := 403, content := "third-party-auth" } :=
  (shim_unauthenticated_gets_403 tinyJsonObjects (fun _ => (403, ShimBody.raw "x"))
    [] [] 403 (ShimBody.raw "x") rfl rfl).1 rfl

/-- C9: with no matching StudentModule row, `get_state_as_json` returns the
empty dict — not an error and not a decoded state; with exactly one
matching row it returns the JSON-decoded `state` field of that row. -/
theorem get_state_as_json_empty_or_decoded {α : Type} (parse : String → α)
    (db : List StudentModule) (username block_id : String) :
    (matchingModules db username block_id = [] →
      get_state_as_json parse db username block_id = .ok .empty)
    ∧ (∀ m : StudentModule, matchingModules db username block_id = [m] →
      get_state_as_json parse db username block_id = .ok (.decoded (parse m.state))) := by
  constructor
  · intro h
    simp [get_state_as_json, h]
  · intro m h
    simp [get_state_as_json, h]

/-- C10: for every positive `days`, the reversed BETWEEN bounds
`(current_date, current_date - days)` on `last_login` make the queryset
empty, so the CSV row set is empty and `handle` returns zero. -/
theorem export_staff_users_selects_nobody (roles : List AccessRole)
    (courses : List CourseOverview) (current_date days : Int) (email_ok : Bool)
    (hdays : 0 < days) :
    selected_course_access_roles roles courses current_date days = []
    ∧ (export_staff_handle roles courses current_date days email_ok).fst = 0 := by
  have hsel : selected_course_access_roles roles courses current_date days = [] := by
    apply List.filter_eq_nil_iff.mpr
    intro r _
    simp only [Bool.and_eq_true, decide_eq_true_eq, not_and, Bool.not_eq_true]
    intro h
    exfalso
    rcases h with ⟨⟨_, hlo, hhi⟩, _⟩
    omega
  refine ⟨hsel, ?_⟩
  cases email_ok <;> simp [export_staff_handle, hsel]

/-- C8: every logout response deletes the marketing-site logged-in
cookies, and the rendered `logout_uris` are exactly the registered
relying-party logout URIs not starting with the stripped HTTP referrer,
each with its `no_redirect` query parameter set to 1 and every other query
parameter untouched. -/
theorem logout_deletes_cookies_and_builds_uris (ctx : LogoutCtx) :
    LogoutEffect.delete_logged_in_cookies ∈ LogoutView_dispatch ctx
    ∧ (∀ v : Url, v ∈ logout_uris ctx ↔
        ∃ u : Url, u ∈ registered_logout_uris ctx
          ∧ (logout_referrer ctx = ""
              ∨ (urlunsplit u).startsWith (logout_referrer ctx) = false)
          ∧ v = build_logout_url u)
    ∧ (∀ u : Url,
        getQueryParam (build_logout_url u).query "no_redirect" = some ["1"]
        ∧ ∀ k : String, k ≠ "no_redirect" →
            getQueryParam (build_logout_url u).query k = getQueryParam u.query k) := by
  refine ⟨by simp [LogoutView_dispatch], ?_, ?_⟩
  · intro v
    simp only [logout_uris, List.mem_map, List.mem_filter]
    constructor
    · rintro ⟨u, ⟨hu, hcond⟩, hv⟩
      refine ⟨u, hu, ?_, hv.symm⟩
      by_cases h0 : logout_referrer ctx = ""
      · exact Or.inl h0
      · right
        simp [h0] at hcond
        simpa using hcond
    · rintro ⟨u, hu, hcond, hv⟩
      refine ⟨u, ⟨hu, ?_⟩, hv.symm⟩
      rcases hcond with h0 | h1
      · simp [h0]
      · by_cases h0 : logout_referrer ctx = "" <;> simp [h0, h1]
  · intro u
    exact ⟨getQueryParam_setQueryParam_same u.query "no_redirect" ["1"],
      fun k hk => getQueryParam_setQueryParam_other u.query "no_redirect" ["1"] k hk⟩

/-! ### Structural lemmas about the login helpers -/

/-- The three possible outcomes of `_get_user_by_email`: the
missing-fields error, a resolved user with no effects, or no user plus
one audit entry. -/
theorem get_user_by_email_cases (features : Features) (db : Db)
    (post : List (String × String)) :
    _get_user_by_email features db post = (.error login_info_error_message, [])
    ∨ (∃ u, _get_user_by_email features db post = (.ok (some u), []))
    ∨ (∃ m, _get_user_by_email features db post = (.ok none, [.audit m])) := by
  unfold _get_user_by_email
  split
  · unfold _get_user_by_email_lookup
    split
    · exact Or.inr (Or.inl ⟨_, rfl⟩)
    · split
      · exact Or.inr (Or.inr ⟨_, rfl⟩)
      · exact Or.inr (Or.inr ⟨_, rfl⟩)
  · exact Or.inl rfl

/-- A resolved first-party user comes from the effect-free success branch
of `_get_user_by_email`. -/
theorem resolved_email_user_eq (env : LoginEnv) (req : LoginRequest) (u : UserRec)
    (h : resolved_email_user env req = some u) :
    _get_user_by_email env.features env.db req.post = (.ok (some u), []) := by
  rcases get_user_by_email_cases env.features env.db req.post with hc | ⟨v, hc⟩ | ⟨m, hc⟩ <;>
    unfold resolved_email_user at h <;> rw [hc] at h <;> simp at h
  rw [hc, h]

/-- `_get_user_by_email` emits no session-step effect. -/
theorem session_step_get_user (features : Features) (db : Db)
    (post : List (String × String)) :
    ∀ e ∈ (_get_user_by_email features db post).2, session_step_effect e = false := by
  rcases get_user_by_email_cases features db post with hc | ⟨v, hc⟩ | ⟨m, hc⟩ <;>
    rw [hc] <;> simp [session_step_effect]

/-- `_do_third_party_auth` emits no session-step effect. -/
theorem session_step_tpa (req : LoginRequest) :
    ∀ e ∈ (_do_third_party_auth req).2, session_step_effect e = false := by
  unfold _do_third_party_auth
  cases req.pipeline_user <;> simp [session_step_effect]

/-- An `_do_third_party_auth` success returns the pipeline-linked user. -/
theorem do_third_party_auth_ok (req : LoginRequest) (u : UserRec) (e : List Effect)
    (h : _do_third_party_auth req = (.ok u, e)) : req.pipeline_user = some u := by
  unfold _do_third_party_auth at h
  cases hp : req.pipeline_user <;> rw [hp] at h <;> simp at h
  rw [h.1]

/-- `_check_excessive_login_attempts` emits no session-step effect. -/
theorem session_step_lockout (features : Features) (db : Db) (user : Option UserRec) :
    ∀ e ∈ (_check_excessive_login_attempts features db user).2,
      session_step_effect e = false := by
  unfold _check_excessive_login_attempts
  cases user with
  | none => simp [session_step_effect]
  | some u =>
    simp only [_check_excessive_login_attempts]
    split <;> simp [session_step_effect]

/-- `_authenticate_first_party` emits no session-step effect. -/
theorem session_step_auth_fp (env : LoginEnv) (req : LoginRequest)
    (user : Option UserRec) :
    ∀ e ∈ (_authenticate_first_party env req user).2,
      session_step_effect e = false := by
  unfold _authenticate_first_party _check_user_auth_flow
  cases user with
  | none => cases hr : req.rate_limited <;> simp [hr, session_step_effect]
  | some u =>
    cases hs : sso_violation env.features req.site u <;>
      cases hr : req.rate_limited <;> simp [hs, hr, session_step_effect]

/-- `_enforce_password_policy_compliance` emits no session-step effect. -/
theorem session_step_compliance (env : LoginEnv) (req : LoginRequest) (u : UserRec) :
    ∀ e ∈ (_enforce_password_policy_compliance env req u).2,
      session_step_effect e = false := by
  unfold _enforce_password_policy_compliance
  cases hc : env.compliance u ((postGet req.post "password").getD "") <;>
    simp [session_step_effect]

/-- `_handle_failed_authentication` emits no session-step effect. -/
theorem session_step_handle_failed (features : Features)
    (user pau : Option UserRec) :
    ∀ e ∈ (_handle_failed_authentication features user pau).2,
      session_step_effect e = false := by
  cases user with
  | none => simp [_handle_failed_authentication]
  | some u =>
    cases hf : features.login_failures_enabled <;>
      cases hsq : features.squelch_pii_in_logs <;>
        cases hai : pau.isSome <;> cases hact : u.is_active <;>
          simp [_handle_failed_authentication, hf, hsq, hai, hact, session_step_effect]

/-- An `_authenticate_first_party` success carries the django
authentication result and certifies that the domain-SSO check found no
violation. -/
theorem auth_fp_ok (env : LoginEnv) (req : LoginRequest) (user pau : Option UserRec)
    (e : List Effect) (h : _authenticate_first_party env req user = (.ok pau, e)) :
    pau = authenticate_result env req (username_for user)
    ∧ ∀ u, user = some u → sso_violation env.features req.site u = false := by
  unfold _authenticate_first_party _check_user_auth_flow at h
  cases user with
  | none =>
    cases hr : req.rate_limited with
    | false =>
      simp [hr] at h
      exact ⟨h.1.symm, fun u hu => by simp at hu⟩
    | true => simp [hr] at h
  | some u =>
    cases hs : sso_violation env.features req.site u with
    | false =>
      cases hr : req.rate_limited with
      | false =>
        simp [hs, hr] at h
        refine ⟨h.1.symm, fun u2 hu2 => ?_⟩
        cases hu2
        exact hs
      | true => simp [hs, hr] at h
    | true => simp [hs] at h

/-- A `login_user_active_check` success needs an authenticated active
user. -/
theorem active_check_success (env : LoginEnv) (req : LoginRequest)
    (user pau : Option UserRec) (is_tpa : Bool) (effs : List Effect)
    (r : Option String)
    (h : (login_user_active_check env req user pau is_tpa effs).1
      = LoginResult.success r) :
    ∃ au, pau = some au ∧ au.is_active = true := by
  unfold login_user_active_check at h
  cases pau with
  | none => simp [authFailedResponse] at h
  | some au =>
    cases ha : au.is_active with
    | false => simp [ha, authFailedResponse] at h
    | true => exact ⟨au, rfl, ha⟩

/-- A non-successful `login_user_active_check` adds no session-step
effect. -/
theorem active_check_no_session (env : LoginEnv) (req : LoginRequest)
    (user pau : Option UserRec) (is_tpa : Bool) (effs : List Effect)
    (hb : ∀ e ∈ effs, session_step_effect e = false)
    (hns : is_success (login_user_active_check env req user pau is_tpa effs).1 = false) :
    ∀ e ∈ (login_user_active_check env req user pau is_tpa effs).2,
      session_step_effect e = false := by
  cases pau with
  | none =>
    have edef : login_user_active_check env req user none is_tpa effs
        = (authFailedResponse env.features
            (_handle_failed_authentication env.features user none).1,
          (effs ++ [Effect.active_check_run])
            ++ (_handle_failed_authentication env.features user none).2) := rfl
    rw [edef]
    intro e he
    rcases List.mem_append.mp he with he | he
    · rcases List.mem_append.mp he with he | he
      · exact hb e he
      · simp at he
        rw [he]
        rfl
    · exact session_step_handle_failed env.features user none e he
  | some au =>
    have edef : login_user_active_check env req user (some au) is_tpa effs
        = if au.is_active then
            (LoginResult.success
              (if is_tpa then some req.pipeline_complete_url else none),
              (effs ++ [Effect.active_check_run])
                ++ _handle_successful_authentication_and_login env.features au)
          else
            (authFailedResponse env.features
              (_handle_failed_authentication env.features user (some au)).1,
              (effs ++ [Effect.active_check_run])
                ++ (_handle_failed_authentication env.features user (some au)).2) := rfl
    rw [edef] at hns ⊢
    cases ha : au.is_active with
    | true =>
      rw [ha, if_pos rfl] at hns
      simp [is_success] at hns
    | false =>
      rw [ha, if_neg Bool.false_ne_true] at hns
      rw [if_neg Bool.false_ne_true]
      intro e he
      rcases List.mem_append.mp he with he | he
      · rcases List.mem_append.mp he with he | he
        · exact hb e he
        · simp at he
          rw [he]
          rfl
      · exact session_step_handle_failed env.features user (some au) e he

/-- A `login_user_after_auth` success needs an authenticated active
user. -/
theorem after_auth_success (env : LoginEnv) (req : LoginRequest)
    (user pau : Option UserRec) (effs : List Effect) (r : Option String)
    (h : (login_user_after_auth env req user pau effs).1 = LoginResult.success r) :
    ∃ au, pau = some au ∧ au.is_active = true := by
  cases pau with
  | none =>
    replace h : (login_user_active_check env req user none false effs).1
        = LoginResult.success r := h
    obtain ⟨au, hau, hact⟩ := active_check_success env req user none false effs r h
    simp at hau
  | some au =>
    have edef : login_user_after_auth env req user (some au) effs
        = if env.features.enforce_compliance_on_login then
            (match _enforce_password_policy_compliance env req au with
              | (.error m, e3) => (authFailedResponse env.features m, effs ++ e3)
              | (.ok _, e3) =>
                login_user_active_check env req user (some au) false (effs ++ e3))
          else login_user_active_check env req user (some au) false effs := rfl
    rw [edef] at h
    cases hc : env.features.enforce_compliance_on_login with
    | false =>
      rw [hc, if_neg Bool.false_ne_true] at h
      obtain ⟨au2, hau2, hact⟩ := active_check_success env req user (some au) false effs r h
      cases hau2
      exact ⟨au, rfl, hact⟩
    | true =>
      rw [hc, if_pos rfl] at h
      rcases h3 : _enforce_password_policy_compliance env req au with ⟨r3, e3⟩
      rw [h3] at h
      cases r3 with
      | error m => simp [authFailedResponse] at h
      | ok _ =>
        replace h : (login_user_active_check env req user (some au) false (effs ++ e3)).1
            = LoginResult.success r := h
        obtain ⟨au2, hau2, hact⟩ :=
          active_check_success env req user (some au) false (effs ++ e3) r h
        cases hau2
        exact ⟨au, rfl, hact⟩

/-- A non-successful `login_user_after_auth` adds no session-step
effect. -/
theorem after_auth_no_session (env : LoginEnv) (req : LoginRequest)
    (user pau : Option UserRec) (effs : List Effect)
    (hb : ∀ e ∈ effs, session_step_effect e = false)
    (hns : is_success (login_user_after_auth env req user pau effs).1 = false) :
    ∀ e ∈ (login_user_after_auth env req user pau effs).2,
      session_step_effect e = false := by
  cases pau with
  | none => exact active_check_no_session env req user none false effs hb hns
  | some au =>
    have edef : login_user_after_auth env req user (some au) effs
        = if env.features.enforce_compliance_on_login then
            (match _enforce_password_policy_compliance env req au with
              | (.error m, e3) => (authFailedResponse env.features m, effs ++ e3)
              | (.ok _, e3) =>
                login_user_active_check env req user (some au) false (effs ++ e3))
          else login_user_active_check env req user (some au) false effs := rfl
    rw [edef] at hns ⊢
    cases hc : env.features.enforce_compliance_on_login with
    | false =>
      rw [hc, if_neg Bool.false_ne_true] at hns
      rw [if_neg Bool.false_ne_true]
      exact active_check_no_session env req user (some au) false effs hb hns
    | true =>
      rw [hc, if_pos rfl] at hns
      rw [if_pos rfl]
      have hcp := session_step_compliance env req au
      rcases h3 : _enforce_password_policy_compliance env req au with ⟨r3, e3⟩
      rw [h3] at hns hcp
      have hb3 : ∀ e ∈ effs ++ e3, session_step_effect e = false := by
        intro e he
        rcases List.mem_append.mp he with he | he
        · exact hb e he
        · exact hcp e he
      cases r3 with
      | error m => exact hb3
      | ok _ =>
        exact active_check_no_session env req user (some au) false (effs ++ e3) hb3 hns

/-- A `login_user_resolved` success needs verified credentials (the
pipeline user on the third-party path, the django authentication result on
the first-party path), an active account, and a clean domain-SSO check. -/
theorem login_user_resolved_success (env : LoginEnv) (req : LoginRequest)
    (user : Option UserRec) (is_tpa : Bool) (effs0 : List Effect)
    (r : Option String)
    (h : (login_user_resolved env req user is_tpa effs0).1 = LoginResult.success r) :
    (∃ au : UserRec, au.is_active = true
      ∧ ((is_tpa = true ∧ user = some au)
        ∨ (is_tpa = false
            ∧ authenticate_result env req (username_for user) = some au)))
    ∧ (∀ u, user = some u → is_tpa = false →
        sso_violation env.features req.site u = false) := by
  rcases h1 : _check_excessive_login_attempts env.features env.db user with ⟨r1, e1⟩
  cases r1 with
  | error m =>
    have edef : login_user_resolved env req user is_tpa effs0
        = (authFailedResponse env.features m, effs0 ++ e1) := by
      unfold login_user_resolved
      rw [h1]
    rw [edef] at h
    simp [authFailedResponse] at h
  | ok _ =>
    have edef : login_user_resolved env req user is_tpa effs0
        = if is_tpa then login_user_active_check env req user user true (effs0 ++ e1)
          else
            match _authenticate_first_party env req user with
            | (.error m, e2) => (authFailedResponse env.features m, effs0 ++ e1 ++ e2)
            | (.ok pau, e2) => login_user_after_auth env req user pau (effs0 ++ e1 ++ e2) := by
      unfold login_user_resolved
      rw [h1]
    rw [edef] at h
    cases is_tpa with
    | true =>
      rw [if_pos rfl] at h
      obtain ⟨au, hau, hact⟩ := active_check_success env req user user true (effs0 ++ e1) r h
      exact ⟨⟨au, hact, Or.inl ⟨rfl, hau⟩⟩, fun u _ hco => Bool.noConfusion hco⟩
    | false =>
      rw [if_neg Bool.false_ne_true] at h
      rcases h2 : _authenticate_first_party env req user with ⟨r2, e2⟩
      rw [h2] at h
      cases r2 with
      | error m => simp [authFailedResponse] at h
      | ok pau =>
        obtain ⟨hpau, hsso⟩ := auth_fp_ok env req user pau e2 h2
        replace h : (login_user_after_auth env req user pau (effs0 ++ e1 ++ e2)).1
            = LoginResult.success r := h
        obtain ⟨au, hau, hact⟩ :=
          after_auth_success env req user pau (effs0 ++ e1 ++ e2) r h
        refine ⟨⟨au, hact, Or.inr ⟨rfl, ?_⟩⟩, fun u hu _ => hsso u hu⟩
        rw [← hpau, hau]

/-- A non-successful `login_user_resolved` adds no session-step effect. -/
theorem login_user_resolved_no_session (env : LoginEnv) (req : LoginRequest)
    (user : Option UserRec) (is_tpa : Bool) (effs0 : List Effect)
    (hb : ∀ e ∈ effs0, session_step_effect e = false)
    (hns : is_success (login_user_resolved env req user is_tpa effs0).1 = false) :
    ∀ e ∈ (login_user_resolved env req user is_tpa effs0).2,
      session_step_effect e = false := by
  have hlk := session_step_lockout env.features env.db user
  rcases h1 : _check_excessive_login_attempts env.features env.db user with ⟨r1, e1⟩
  rw [h1] at hlk
  have hb1 : ∀ e ∈ effs0 ++ e1, session_step_effect e = false := by
    intro e he
    rcases List.mem_append.mp he with he | he
    · exact hb e he
    · exact hlk e he
  cases r1 with
  | error m =>
    have edef : login_user_resolved env req user is_tpa effs0
        = (authFailedResponse env.features m, effs0 ++ e1) := by
      unfold login_user_resolved
      rw [h1]
    rw [edef]
    exact hb1
  | ok _ =>
    have edef : login_user_resolved env req user is_tpa effs0
        = if is_tpa then login_user_active_check env req user user true (effs0 ++ e1)
          else
            match _authenticate_first_party env req user with
            | (.error m, e2) => (authFailedResponse env.features m, effs0 ++ e1 ++ e2)
            | (.ok pau, e2) => login_user_after_auth env req user pau (effs0 ++ e1 ++ e2) := by
      unfold login_user_resolved
      rw [h1]
    rw [edef] at hns ⊢
    cases is_tpa with
    | true =>
      rw [if_pos rfl] at hns ⊢
      exact active_check_no_session env req user user true (effs0 ++ e1) hb1 hns
    | false =>
      rw [if_neg Bool.false_ne_true] at hns ⊢
      have hfp := session_step_auth_fp env req user
      rcases h2 : _authenticate_first_party env req user with ⟨r2, e2⟩
      rw [h2] at hns hfp
      have hb2 : ∀ e ∈ effs0 ++ e1 ++ e2, session_step_effect e = false := by
        intro e he
        rcases List.mem_append.mp he with he | he
        · exact hb1 e he
        · exact hfp e he
      cases r2 with
      | error m => exact hb2
      | ok pau =>
        replace hns : is_success
            (login_user_after_auth env req user pau (effs0 ++ e1 ++ e2)).1 = false := hns
        exact after_auth_no_session env req user pau (effs0 ++ e1 ++ e2) hb2 hns
/-- Witness for C10 at a concrete queryset. -/
theorem export_staff_users_selects_nobody_witness :
    selected_course_access_roles
        [{ user := { username := "u", email := "u@x.org", last_login := 100, is_staff := false },
           role := "staff", course_id := "c1" }]
        [{ id := "c1", end_date := 200 }] 100 7 = []
    ∧ (export_staff_handle
        [{ user := { username := "u", email := "u@x.org", last_login := 100, is_staff := false },
           role := "staff", course_id := "c1" }]
        [{ id := "c1", end_date := 200 }] 100 7 true).fst = 0 :=
  export_staff_users_selects_nobody _ _ 100 7 true (by norm_num)

/-- An unknown email with both fields present yields no user and one audit
entry. -/
theorem get_user_by_email_unknown (features : Features) (db : Db)
    (post : List (String × String)) (email : String)
    (hE : postGet post "email" = some email)
    (hP : (postGet post "password").isSome = true)
    (hF : db.users.find? (fun u => u.email == email) = none) :
    ∃ m, _get_user_by_email features db post = (.ok none, [.audit m]) := by
  obtain ⟨pw, hPw⟩ := Option.isSome_iff_exists.mp hP
  unfold _get_user_by_email
  rw [hE, hPw]
  show ∃ m, _get_user_by_email_lookup features db email = (.ok none, [.audit m])
  unfold _get_user_by_email_lookup
  rw [hF]
  cases hsq : features.squelch_pii_in_logs with
  | true => exact ⟨_, rfl⟩
  | false => exact ⟨_, rfl⟩

/-- The full run of `login_user` for a locked-out resolved first-party
user: the locked failure, with the lockout check as the only effect. -/
theorem login_user_locked_run (env : LoginEnv) (req : LoginRequest) (u : UserRec)
    (hflow : is_tpa_flow env req = false)
    (hres : resolved_email_user env req = some u)
    (hfeat : env.features.login_failures_enabled = true)
    (hlock : env.db.locked_out.contains u.uid = true) :
    login_user env req
      = (authFailedResponse env.features locked_out_message,
         [Effect.lockout_check_run]) := by
  have hge := resolved_email_user_eq env req u hres
  have e1 : login_user env req = login_user_resolved env req (some u) false [] := by
    unfold login_user
    rw [hflow, if_neg Bool.false_ne_true, hge]
  have e2 : _check_excessive_login_attempts env.features env.db (some u)
      = (.error locked_out_message, [Effect.lockout_check_run]) := by
    simp only [_check_excessive_login_attempts]
    rw [hfeat, hlock]
    rfl
  have e3 : login_user_resolved env req (some u) false []
      = (authFailedResponse env.features locked_out_message,
         [] ++ [Effect.lockout_check_run]) := by
    unfold login_user_resolved
    rw [e2]
  rw [e1, e3]
  rfl

/-- The full run of `login_user` for a resolved first-party user stopped
by the rate limiter: the rate-limit failure, with only the lockout-check
and SSO-check effects. -/
theorem login_user_rate_limited_run (env : LoginEnv) (req : LoginRequest) (u : UserRec)
    (hflow : is_tpa_flow env req = false)
    (hres : resolved_email_user env req = some u)
    (hlock : (env.features.login_failures_enabled
      && env.db.locked_out.contains u.uid) = false)
    (hsso : sso_violation env.features req.site u = false)
    (hrate : req.rate_limited = true) :
    login_user env req
      = (authFailedResponse env.features rate_limit_message,
         [Effect.lockout_check_run, Effect.sso_check_run]) := by
  have hge := resolved_email_user_eq env req u hres
  have e1 : login_user env req = login_user_resolved env req (some u) false [] := by
    unfold login_user
    rw [hflow, if_neg Bool.false_ne_true, hge]
  have e2 : _check_excessive_login_attempts env.features env.db (some u)
      = (.ok (), [Effect.lockout_check_run]) := by
    simp only [_check_excessive_login_attempts]
    rw [hlock, if_neg Bool.false_ne_true]
  have e4 : _authenticate_first_party env req (some u)
      = (.error rate_limit_message, [Effect.sso_check_run]) := by
    simp [_authenticate_first_party, _check_user_auth_flow, hsso, hrate]
  have e5 : login_user_resolved env req (some u) false []
      = (authFailedResponse env.features rate_limit_message,
         [] ++ [Effect.lockout_check_run] ++ [Effect.sso_check_run]) := by
    unfold login_user_resolved
    rw [e2, e4]
    rfl
  rw [e1, e5]
  rfl

/-- The full run of `login_user` for a resolved first-party user whose
email domain violates the domain-SSO policy: the SSO failure, with only
the lockout-check and SSO-check effects. -/
theorem login_user_sso_violation_run (env : LoginEnv) (req : LoginRequest) (u : UserRec)
    (hflow : is_tpa_flow env req = false)
    (hres : resolved_email_user env req = some u)
    (hlock : (env.features.login_failures_enabled
      && env.db.locked_out.contains u.uid) = false)
    (hsso : sso_violation env.features req.site u = true) :
    login_user env req
      = (authFailedResponse env.features
          (sso_message (lowerString req.site.third_party_auth_only_domain)
            req.site.third_party_auth_only_provider),
         [Effect.lockout_check_run, Effect.sso_check_run]) := by
  have hge := resolved_email_user_eq env req u hres
  have e1 : login_user env req = login_user_resolved env req (some u) false [] := by
    unfold login_user
    rw [hflow, if_neg Bool.false_ne_true, hge]
  have e2 : _check_excessive_login_attempts env.features env.db (some u)
      = (.ok (), [Effect.lockout_check_run]) := by
    simp only [_check_excessive_login_attempts]
    rw [hlock, if_neg Bool.false_ne_true]
  have e3 : _check_user_auth_flow env.features req.site (some u)
      = (.error (sso_message (lowerString req.site.third_party_auth_only_domain)
          req.site.third_party_auth_only_provider), [Effect.sso_check_run]) := by
    simp only [_check_user_auth_flow]
    rw [hsso, if_pos rfl]
  have e4 : _authenticate_first_party env req (some u)
      = (.error (sso_message (lowerString req.site.third_party_auth_only_domain)
          req.site.third_party_auth_only_provider), [Effect.sso_check_run]) := by
    unfold _authenticate_first_party
    rw [e3]
  have e5 : login_user_resolved env req (some u) false []
      = (authFailedResponse env.features
          (sso_message (lowerString req.site.third_party_auth_only_domain)
            req.site.third_party_auth_only_provider),
         [] ++ [Effect.lockout_check_run] ++ [Effect.sso_check_run]) := by
    unfold login_user_resolved
    rw [e2, e4]
    rfl
  rw [e1, e5]
  rfl

/-- The full run of `login_user` for a resolved first-party user who
authenticates but is blocked by the password-compliance policy: the
policy failure, with the lockout-check, SSO-check, password-check and
password-reset-email effects and nothing else. -/
theorem login_user_policy_violation_run (env : LoginEnv) (req : LoginRequest)
    (u au : UserRec) (msg : String)
    (hflow : is_tpa_flow env req = false)
    (hres : resolved_email_user env req = some u)
    (hlock : (env.features.login_failures_enabled
      && env.db.locked_out.contains u.uid) = false)
    (hsso : sso_violation env.features req.site u = false)
    (hrate : req.rate_limited = false)
    (hauth : authenticate_result env req u.username = some au)
    (hcomp : env.features.enforce_compliance_on_login = true)
    (hrej : env.compliance au ((postGet req.post "password").getD "")
      = .rejected msg) :
    login_user env req
      = (authFailedResponse env.features msg,
         [Effect.lockout_check_run, Effect.sso_check_run,
          Effect.password_check_run u.username,
          Effect.send_password_reset_email au.uid]) := by
  have hge := resolved_email_user_eq env req u hres
  have e1 : login_user env req = login_user_resolved env req (some u) false [] := by
    unfold login_user
    rw [hflow, if_neg Bool.false_ne_true, hge]
  have e2 : _check_excessive_login_attempts env.features env.db (some u)
      = (.ok (), [Effect.lockout_check_run]) := by
    simp only [_check_excessive_login_attempts]
    rw [hlock, if_neg Bool.false_ne_true]
  have f4 : _authenticate_first_party env req (some u)
      = (.ok (authenticate_result env req u.username),
         [Effect.sso_check_run, Effect.password_check_run u.username]) := by
    simp [_authenticate_first_party, _check_user_auth_flow, hsso, hrate, username_for]
  have f5 : login_user_resolved env req (some u) false []
      = login_user_after_auth env req (some u) (authenticate_result env req u.username)
          ([] ++ [Effect.lockout_check_run]
            ++ [Effect.sso_check_run, Effect.password_check_run u.username]) := by
    unfold login_user_resolved
    rw [e2, f4]
    rfl
  have g1 : _enforce_password_policy_compliance env req au
      = (.error msg, [Effect.send_password_reset_email au.uid]) := by
    simp only [_enforce_password_policy_compliance]
    rw [hrej]
  have g2 : login_user_after_auth env req (some u) (some au)
      ([] ++ [Effect.lockout_check_run]
        ++ [Effect.sso_check_run, Effect.password_check_run u.username])
      = (authFailedResponse env.features msg,
         ([] ++ [Effect.lockout_check_run]
           ++ [Effect.sso_check_run, Effect.password_check_run u.username])
           ++ [Effect.send_password_reset_email au.uid]) := by
    have edef : login_user_after_auth env req (some u) (some au)
        ([] ++ [Effect.lockout_check_run]
          ++ [Effect.sso_check_run, Effect.password_check_run u.username])
        = if env.features.enforce_compliance_on_login then
            (match _enforce_password_policy_compliance env req au with
              | (.error m, e3) => (authFailedResponse env.features m,
                  ([] ++ [Effect.lockout_check_run]
                    ++ [Effect.sso_check_run, Effect.password_check_run u.username]) ++ e3)
              | (.ok _, e3) => login_user_active_check env req (some u) (some au) false
                  (([] ++ [Effect.lockout_check_run]
                    ++ [Effect.sso_check_run, Effect.password_check_run u.username]) ++ e3))
          else login_user_active_check env req (some u) (some au) false
            ([] ++ [Effect.lockout_check_run]
              ++ [Effect.sso_check_run, Effect.password_check_run u.username]) := rfl
    rw [edef, hcomp, if_pos rfl, g1]
  rw [e1, f5, hauth, g2]
  rfl

/-- C1: a `login_user` response carrying `success = true` requires that
credential verification passed (a linked third-party user, or the django
authentication result), that the account is active, and that the
domain-SSO check found no violation for the resolved user; a failing run
performs no step of the session-establishment stage, and a domain-SSO
violation short-circuits before the password check and the active-account
check, leaving exactly the lockout-check and SSO-check effects. -/
theorem login_user_success_requires_all_checks (env : LoginEnv) (req : LoginRequest) :
    (∀ r : Option String, (login_user env req).1 = LoginResult.success r →
      (∃ au : UserRec, au.is_active = true
        ∧ (req.pipeline_user = some au
          ∨ authenticate_result env req
              (username_for (resolved_email_user env req)) = some au))
      ∧ (∀ u : UserRec, is_tpa_flow env req = false →
          resolved_email_user env req = some u →
          sso_violation env.features req.site u = false))
    ∧ (is_success (login_user env req).1 = false →
        ∀ e ∈ (login_user env req).2, session_step_effect e = false)
    ∧ (∀ u : UserRec, is_tpa_flow env req = false →
        resolved_email_user env req = some u →
        (env.features.login_failures_enabled
          && env.db.locked_out.contains u.uid) = false →
        sso_violation env.features req.site u = true →
        (login_user env req).1 = authFailedResponse env.features
            (sso_message (lowerString req.site.third_party_auth_only_domain)
              req.site.third_party_auth_only_provider)
          ∧ (login_user env req).2 = [Effect.lockout_check_run, Effect.sso_check_run]
          ∧ ∀ un, Effect.password_check_run un ∉ (login_user env req).2) := by
  refine ⟨?_, ?_, ?_⟩
  · intro r hs
    cases hf : is_tpa_flow env req with
    | true =>
      have edef : login_user env req
          = match _do_third_party_auth req with
            | (.error m, e) => (.third_party_failure m, e)
            | (.ok u, e) => login_user_resolved env req (some u) true e := by
        unfold login_user
        rw [hf, if_pos rfl]
      rw [edef] at hs
      rcases ht : _do_third_party_auth req with ⟨rt, et⟩
      rw [ht] at hs
      cases rt with
      | error m => simp at hs
      | ok u =>
        replace hs : (login_user_resolved env req (some u) true et).1
            = LoginResult.success r := hs
        obtain ⟨⟨au, hact, hcase⟩, _⟩ :=
          login_user_resolved_success env req (some u) true et r hs
        constructor
        · refine ⟨au, hact, Or.inl ?_⟩
          rcases hcase with ⟨_, hua⟩ | ⟨hco, _⟩
          · have hp := do_third_party_auth_ok req u et ht
            rw [hp, hua]
          · exact absurd hco (by simp)
        · intro u2 hco _
          exact absurd hco (by simp)
    | false =>
      have edef : login_user env req
          = match _get_user_by_email env.features env.db req.post with
            | (.error m, e) => (authFailedResponse env.features m, e)
            | (.ok user, e) => login_user_resolved env req user false e := by
        unfold login_user
        rw [hf, if_neg Bool.false_ne_true]
      rw [edef] at hs
      rcases hg : _get_user_by_email env.features env.db req.post with ⟨rg, eg⟩
      rw [hg] at hs
      cases rg with
      | error m => simp [authFailedResponse] at hs
      | ok user =>
        have hresolved : resolved_email_user env req = user := by
          unfold resolved_email_user
          rw [hg]
        replace hs : (login_user_resolved env req user false eg).1
            = LoginResult.success r := hs
        obtain ⟨⟨au, hact, hcase⟩, hsso⟩ :=
          login_user_resolved_success env req user false eg r hs
        constructor
        · refine ⟨au, hact, Or.inr ?_⟩
          rcases hcase with ⟨hco, _⟩ | ⟨_, hauth⟩
          · exact absurd hco (by simp)
          · rw [hresolved]
            exact hauth
        · intro u2 _ hres2
          rw [hresolved] at hres2
          replace hres2 : user = some u2 := hres2
          exact hsso u2 hres2 rfl
  · intro hns
    cases hf : is_tpa_flow env req with
    | true =>
      have edef : login_user env req
          = match _do_third_party_auth req with
            | (.error m, e) => (.third_party_failure m, e)
            | (.ok u, e) => login_user_resolved env req (some u) true e := by
        unfold login_user
        rw [hf, if_pos rfl]
      rw [edef] at hns ⊢
      have htp := session_step_tpa req
      rcases ht : _do_third_party_auth req with ⟨rt, et⟩
      rw [ht] at hns htp
      cases rt with
      | error m =>
        intro e he
        exact htp e he
      | ok u =>
        replace hns : is_success (login_user_resolved env req (some u) true et).1
            = false := hns
        exact login_user_resolved_no_session env req (some u) true et htp hns
    | false =>
      have edef : login_user env req
          = match _get_user_by_email env.features env.db req.post with
            | (.error m, e) => (authFailedResponse env.features m, e)
            | (.ok user, e) => login_user_resolved env req user false e := by
        unfold login_user
        rw [hf, if_neg Bool.false_ne_true]
      rw [edef] at hns ⊢
      have hgu := session_step_get_user env.features env.db req.post
      rcases hg : _get_user_by_email env.features env.db req.post with ⟨rg, eg⟩
      rw [hg] at hns hgu
      cases rg with
      | error m =>
        intro e he
        exact hgu e he
      | ok user =>
        replace hns : is_success (login_user_resolved env req user false eg).1
            = false := hns
        exact login_user_resolved_no_session env req user false eg hgu hns
  · intro u hflow hres hlock hsso
    have hge := resolved_email_user_eq env req u hres
    have e1 : login_user env req = login_user_resolved env req (some u) false [] := by
      unfold login_user
      rw [hflow, if_neg Bool.false_ne_true, hge]
    have e2 : _check_excessive_login_attempts env.features env.db (some u)
        = (.ok (), [Effect.lockout_check_run]) := by
      simp only [_check_excessive_login_attempts]
      rw [hlock, if_neg Bool.false_ne_true]
    have e3 : _check_user_auth_flow env.features req.site (some u)
        = (.error (sso_message (lowerString req.site.third_party_auth_only_domain)
            req.site.third_party_auth_only_provider), [Effect.sso_check_run]) := by
      simp only [_check_user_auth_flow]
      rw [hsso, if_pos rfl]
    have e4 : _authenticate_first_party env req (some u)
        = (.error (sso_message (lowerString req.site.third_party_auth_only_domain)
            req.site.third_party_auth_only_provider), [Effect.sso_check_run]) := by
      unfold _authenticate_first_party
      rw [e3]
    have e5 : login_user_resolved env req (some u) false []
        = (authFailedResponse env.features
            (sso_message (lowerString req.site.third_party_auth_only_domain)
              req.site.third_party_auth_only_provider),
           [] ++ [Effect.lockout_check_run] ++ [Effect.sso_check_run]) := by
      unfold login_user_resolved
      rw [e2, e4]
      rfl
    refine ⟨?_, ?_, ?_⟩
    · rw [e1, e5]
    · rw [e1, e5]
      rfl
    · intro un
      rw [e1, e5]
      simp

/-- C2 counterexample: a failing login attempt (the account-locked
failure) for a resolved user with the lockout feature enabled whose only
effect is the lockout check itself: no audit entry is written and no
lockout counter is incremented. -/
theorem lockout_failure_no_audit_no_increment_cex :
    lockedEnv.features.login_failures_enabled = true
    ∧ resolved_email_user lockedEnv lockedReq = some aliceUser
    ∧ (login_user lockedEnv lockedReq).1 = LoginResult.failure locked_out_message 200
    ∧ (login_user lockedEnv lockedReq).2 = [Effect.lockout_check_run] :=
  ⟨rfl, rfl, rfl, rfl⟩

/-- C2 amended: only some failure paths perform the bookkeeping: an
attempt that reaches `_handle_failed_authentication` (invalid password,
account not activated) writes an audit entry and increments the lockout
counter when the feature is enabled and a user record was resolved; an
unknown-user attempt writes an audit entry at lookup time but increments
nothing.  The account-locked, rate-limited, domain-requires-SSO and
password-policy failure paths neither increment the counter nor write an
audit entry. -/
theorem failure_bookkeeping_only_in_handle_failed :
    (∀ (features : Features) (u : UserRec) (pau : Option UserRec),
      (features.login_failures_enabled = true →
        Effect.increment_lockout_counter u.uid
          ∈ (_handle_failed_authentication features (some u) pau).2)
      ∧ ∃ m, Effect.audit m ∈ (_handle_failed_authentication features (some u) pau).2)
    ∧ (∀ (features : Features) (db : Db) (post : List (String × String)) (email : String),
        postGet post "email" = some email →
        (postGet post "password").isSome = true →
        db.users.find? (fun u => u.email == email) = none →
        ∃ m, Effect.audit m ∈ (_get_user_by_email features db post).2)
    ∧ (∀ (env : LoginEnv) (req : LoginRequest) (u : UserRec),
        is_tpa_flow env req = false →
        resolved_email_user env req = some u →
        env.features.login_failures_enabled = true →
        env.db.locked_out.contains u.uid = true →
        (login_user env req).1 = authFailedResponse env.features locked_out_message
        ∧ (∀ m, Effect.audit m ∉ (login_user env req).2)
        ∧ ∀ i, Effect.increment_lockout_counter i ∉ (login_user env req).2)
    ∧ (∀ (env : LoginEnv) (req : LoginRequest) (u : UserRec),
        is_tpa_flow env req = false →
        resolved_email_user env req = some u →
        (env.features.login_failures_enabled
          && env.db.locked_out.contains u.uid) = false →
        sso_violation env.features req.site u = false →
        req.rate_limited = true →
        (login_user env req).1 = authFailedResponse env.features rate_limit_message
        ∧ (∀ m, Effect.audit m ∉ (login_user env req).2)
        ∧ ∀ i, Effect.increment_lockout_counter i ∉ (login_user env req).2)
    ∧ (∀ (env : LoginEnv) (req : LoginRequest) (u : UserRec),
        is_tpa_flow env req = false →
        resolved_email_user env req = some u →
        (env.features.login_failures_enabled
          && env.db.locked_out.contains u.uid) = false →
        sso_violation env.features req.site u = true →
        (login_user env req).1 = authFailedResponse env.features
            (sso_message (lowerString req.site.third_party_auth_only_domain)
              req.site.third_party_auth_only_provider)
        ∧ (∀ m, Effect.audit m ∉ (login_user env req).2)
        ∧ ∀ i, Effect.increment_lockout_counter i ∉ (login_user env req).2)
    ∧ (∀ (env : LoginEnv) (req : LoginRequest) (u au : UserRec) (msg : String),
        is_tpa_flow env req = false →
        resolved_email_user env req = some u →
        (env.features.login_failures_enabled
          && env.db.locked_out.contains u.uid) = false →
        sso_violation env.features req.site u = false →
        req.rate_limited = false →
        authenticate_result env req u.username = some au →
        env.features.enforce_compliance_on_login = true →
        env.compliance au ((postGet req.post "password").getD "") = .rejected msg →
        (login_user env req).1 = authFailedResponse env.features msg
        ∧ (∀ m, Effect.audit m ∉ (login_user env req).2)
        ∧ ∀ i, Effect.increment_lockout_counter i ∉ (login_user env req).2) := by
  refine ⟨?_, ?_, ?_, ?_, ?_, ?_⟩
  · intro features u pau
    constructor
    · intro hf
      cases hsq : features.squelch_pii_in_logs <;>
        cases hai : pau.isSome <;> cases hact : u.is_active <;>
          simp [_handle_failed_authentication, hf, hsq, hai, hact]
    · cases hf : features.login_failures_enabled <;>
        cases hsq : features.squelch_pii_in_logs <;>
          cases hai : pau.isSome <;> cases hact : u.is_active <;>
            simp [_handle_failed_authentication, hf, hsq, hai, hact]
  · intro features db post email hE hP hF
    obtain ⟨m, hm⟩ := get_user_by_email_unknown features db post email hE hP hF
    rw [hm]
    exact ⟨m, by simp⟩
  · intro env req u hflow hres hfeat hlock
    rw [login_user_locked_run env req u hflow hres hfeat hlock]
    exact ⟨rfl, fun m => by simp, fun i => by simp⟩
  · intro env req u hflow hres hlock hsso hrate
    rw [login_user_rate_limited_run env req u hflow hres hlock hsso hrate]
    exact ⟨rfl, fun m => by simp, fun i => by simp⟩
  · intro env req u hflow hres hlock hsso
    rw [login_user_sso_violation_run env req u hflow hres hlock hsso]
    exact ⟨rfl, fun m => by simp, fun i => by simp⟩
  · intro env req u au msg hflow hres hlock hsso hrate hauth hcomp hrej
    rw [login_user_policy_violation_run env req u au msg hflow hres hlock hsso hrate
      hauth hcomp hrej]
    exact ⟨rfl, fun m => by simp, fun i => by simp⟩

/-- C6: a locked-out identity (with the lockout feature enabled) fails
with the account-locked message regardless of password correctness: the
lockout check runs before password verification, which never happens. -/
theorem locked_account_fails_before_password_check (env : LoginEnv)
    (req : LoginRequest) (u : UserRec)
    (hflow : is_tpa_flow env req = false)
    (hres : resolved_email_user env req = some u)
    (hfeat : env.features.login_failures_enabled = true)
    (hlock : env.db.locked_out.contains u.uid = true) :
    (login_user env req).1 = authFailedResponse env.features locked_out_message
    ∧ (login_user env req).2 = [Effect.lockout_check_run]
    ∧ ∀ un, Effect.password_check_run un ∉ (login_user env req).2 := by
  rw [login_user_locked_run env req u hflow hres hfeat hlock]
  exact ⟨rfl, rfl, fun un => by simp⟩

/-- Witness for C6: the locked-out user attempts a login with the correct
password and still receives the account-locked failure, with no password
check performed. -/
theorem locked_account_fails_before_password_check_witness :
    (login_user lockedEnv lockedReq).1
      = authFailedResponse lockedEnv.features locked_out_message
    ∧ (login_user lockedEnv lockedReq).2 = [Effect.lockout_check_run]
    ∧ ∀ un, Effect.password_check_run un ∉ (login_user lockedEnv lockedReq).2 :=
  locked_account_fails_before_password_check lockedEnv lockedReq aliceUser
    rfl rfl rfl rfl

/-- C7: an unknown-email login attempt and a known-email wrong-password
attempt in the same environment produce identical responses, the generic
incorrect-credentials failure. -/
theorem unknown_email_matches_wrong_password (env : LoginEnv)
    (req1 req2 : LoginRequest) (u2 : UserRec)
    (h1flow : is_tpa_flow env req1 = false)
    (h1email : (postGet req1.post "email").isSome = true)
    (h1pw : (postGet req1.post "password").isSome = true)
    (h1unknown : env.db.users.find?
      (fun u => u.email == (postGet req1.post "email").getD "") = none)
    (h1empty : authenticate_result env req1 "" = none)
    (h1rate : req1.rate_limited = false)
    (h2flow : is_tpa_flow env req2 = false)
    (h2res : resolved_email_user env req2 = some u2)
    (h2lock : (env.features.login_failures_enabled
      && env.db.locked_out.contains u2.uid) = false)
    (h2sso : sso_violation env.features req2.site u2 = false)
    (h2rate : req2.rate_limited = false)
    (h2wrong : authenticate_result env req2 u2.username = none) :
    (login_user env req1).1 = authFailedResponse env.features incorrect_message
    ∧ (login_user env req1).1 = (login_user env req2).1 := by
  obtain ⟨email1, hE⟩ := Option.isSome_iff_exists.mp h1email
  rw [hE] at h1unknown
  simp only [Option.getD_some] at h1unknown
  obtain ⟨m1, hg1⟩ :=
    get_user_by_email_unknown env.features env.db req1.post email1 hE h1pw h1unknown
  have e1 : login_user env req1 = login_user_resolved env req1 none false [.audit m1] := by
    unfold login_user
    rw [h1flow, if_neg Bool.false_ne_true, hg1]
  have e3 : _authenticate_first_party env req1 none
      = (.ok (authenticate_result env req1 ""),
         [Effect.sso_check_run, Effect.password_check_run ""]) := by
    simp [_authenticate_first_party, _check_user_auth_flow, h1rate, username_for]
  have e4 : login_user_resolved env req1 none false [.audit m1]
      = login_user_after_auth env req1 none (authenticate_result env req1 "")
          ([Effect.audit m1] ++ [Effect.lockout_check_run]
            ++ [Effect.sso_check_run, Effect.password_check_run ""]) := by
    unfold login_user_resolved
    rw [e3]
    rfl
  have r1 : (login_user env req1).1 = authFailedResponse env.features incorrect_message := by
    rw [e1, e4, h1empty]
    rfl
  have hge2 := resolved_email_user_eq env req2 u2 h2res
  have f1 : login_user env req2 = login_user_resolved env req2 (some u2) false [] := by
    unfold login_user
    rw [h2flow, if_neg Bool.false_ne_true, hge2]
  have f2 : _check_excessive_login_attempts env.features env.db (some u2)
      = (.ok (), [Effect.lockout_check_run]) := by
    simp only [_check_excessive_login_attempts]
    rw [h2lock, if_neg Bool.false_ne_true]
  have f3 : _check_user_auth_flow env.features req2.site (some u2)
      = (.ok (), [Effect.sso_check_run]) := by
    simp only [_check_user_auth_flow]
    rw [h2sso, if_neg Bool.false_ne_true]
  have f4 : _authenticate_first_party env req2 (some u2)
      = (.ok (authenticate_result env req2 u2.username),
         [Effect.sso_check_run, Effect.password_check_run u2.username]) := by
    simp [_authenticate_first_party, _check_user_auth_flow, h2sso, h2rate, username_for]
  have f5 : login_user_resolved env req2 (some u2) false []
      = login_user_after_auth env req2 (some u2) (authenticate_result env req2 u2.username)
          ([] ++ [Effect.lockout_check_run]
            ++ [Effect.sso_check_run, Effect.password_check_run u2.username]) := by
    unfold login_user_resolved
    rw [f2, f4]
    rfl
  have r2 : (login_user env req2).1 = authFailedResponse env.features incorrect_message := by
    rw [f1, f5, h2wrong]
    rfl
  rw [r1, r2]
  exact ⟨rfl, rfl⟩

/-- Witness for C7: in an environment holding one user, an unknown email
and a wrong password for the known email receive the same response. -/
theorem unknown_email_matches_wrong_password_witness :
    (login_user bobEnv unknownEmailReq).1
      = authFailedResponse bobEnv.features incorrect_message
    ∧ (login_user bobEnv unknownEmailReq).1 = (login_user bobEnv wrongPasswordReq).1 :=
  unknown_email_matches_wrong_password bobEnv unknownEmailReq wrongPasswordReq bobUser
    rfl rfl rfl rfl rfl rfl rfl rfl rfl rfl rfl rfl

end Edx
